import Mathlib

/-!
Verification of the TypeScript Message Control Plane (`src/typescript/mcp/mcp.ts`).

The dispatch pipeline is embedded shallowly: Promises disappear (every stage
is awaited sequentially in the source), a thrown JS error becomes
`Except.error` carrying the error message string (the empty string models a
missing `error.message`), `Date.now()` / `Math.random()` become an explicit
`Clock` argument, and `metadata: Record<string, any>` becomes an association
list of string entries (the dispatcher only ever reads and writes string
values in it).
-/

/-- The `content: any` payload of a message. The dispatcher itself only ever
writes a plain text content (no-reply synthesis) or an
`{error, message}` object (`buildErrorResponse`); inbound content is opaque. -/
inductive MCPContent where
  | text : String → MCPContent
  | errorInfo : String → String → MCPContent
  | opaque' : Nat → MCPContent
  deriving DecidableEq, Repr

/-- `interface MCPMessage` from mcp.ts. -/
structure MCPMessage where
  id : String
  source : String
  conversationId : String
  timestamp : Nat
  content : MCPContent
  metadata : Option (List (String × String)) := none
  deriving DecidableEq, Repr

/-- `interface MCPRequest`: wraps exactly one message. -/
structure MCPRequest where
  message : MCPMessage
  deriving DecidableEq, Repr

/-- The `error` field of `interface MCPResponse`. -/
structure MCPErrorInfo where
  code : String
  message : String
  deriving DecidableEq, Repr

/-- `interface MCPResponse` from mcp.ts. -/
structure MCPResponse where
  originalMessageId : String
  responseMessage : MCPMessage
  success : Bool
  error : Option MCPErrorInfo := none
  deriving DecidableEq, Repr

/-- A message handler: `(message: MCPMessage) => Promise<MCPMessage | null>`;
a rejected promise is `Except.error` with the thrown error message. -/
def MessageHandler : Type := MCPMessage → Except String (Option MCPMessage)

/-- A request validator: `(request: MCPRequest) => Promise<void>`. -/
def RequestValidator : Type := MCPRequest → Except String Unit

/-- A response interceptor: `(response: MCPResponse) => Promise<MCPResponse>`. -/
def ResponseInterceptor : Type := MCPResponse → Except String MCPResponse

/-- Sources of nondeterminism used when the dispatcher synthesizes message
ids and timestamps: `Date.now()` and `Math.random().toString(36).substring(7)`. -/
structure Clock where
  now : Nat
  rand : String
  deriving DecidableEq, Repr

/-- State of `class MessageControlPlane`: the handler registry (a `Map`,
modelled extensionally as a lookup function) and the two ordered chains. -/
structure MessageControlPlane where
  messageHandlers : String → Option MessageHandler
  requestValidators : List RequestValidator
  responseInterceptors : List ResponseInterceptor

/-- `registerMessageHandler`: `Map.set`, overwriting any previous entry. -/
def registerMessageHandler (mcp : MessageControlPlane) (messageType : String)
    (handler : MessageHandler) : MessageControlPlane :=
  { mcp with messageHandlers :=
      fun k => if k = messageType then some handler else mcp.messageHandlers k }

/-- `addRequestValidator`: appends to the validator chain. -/
def addRequestValidator (mcp : MessageControlPlane) (v : RequestValidator) :
    MessageControlPlane :=
  { mcp with requestValidators := mcp.requestValidators ++ [v] }

/-- `addResponseInterceptor`: appends to the interceptor chain. -/
def addResponseInterceptor (mcp : MessageControlPlane) (i : ResponseInterceptor) :
    MessageControlPlane :=
  { mcp with responseInterceptors := mcp.responseInterceptors ++ [i] }

/-- JavaScript `s || d` for the error-message strings the source applies it
to: the empty string stands for all falsy values of `error.message`
(missing as well as `""`). -/
def jsOr (s d : String) : String := if s = "" then d else s

/-- An apostrophe (the source interpolates message types between quotes). -/
def singleQuote : String := String.singleton (Char.ofNat 39)

/-- Line 95: `const messageType = request.message.metadata?.type || 'default'`.
A missing metadata map, a missing `type` entry, and a falsy (empty) `type`
value all fall back to the literal key `"default"`. -/
def resolveMessageType (metadata : Option (List (String × String))) : String :=
  match metadata with
  | none => "default"
  | some entries =>
    match entries.lookup "type" with
    | none => "default"
    | some t => if t = "" then "default" else t

/-- Lines 162-187: `buildErrorResponse`, the synthetic failure Response. -/
def buildErrorResponse (clk : Clock) (originalMessageId errorCode errorMessage : String) :
    MCPResponse :=
  { originalMessageId := originalMessageId
    responseMessage :=
      { id := "error-" ++ toString clk.now ++ "-" ++ clk.rand
        source := "mcp_error_handler"
        conversationId := "conv-for-" ++ originalMessageId
        timestamp := clk.now
        content := .errorInfo errorCode errorMessage
        metadata := some [("originalMessageId", originalMessageId)] }
    success := false
    error := some { code := errorCode, message := errorMessage } }

/-- Lines 85-87: the validator loop inside one `try`; the first rejection
escapes to the `catch`. -/
def runValidators : List RequestValidator → MCPRequest → Except String Unit
  | [], _ => .ok ()
  | v :: rest, req =>
    match v req with
    | .error e => .error e
    | .ok _ => runValidators rest req

/-- Lines 127-134: the synthesized `noResponseSystemMessage` for a handler
that returned `null`. -/
def noResponseSystemMessage (clk : Clock) (msg : MCPMessage) : MCPMessage :=
  { id := "system-response-" ++ toString clk.now ++ "-" ++ clk.rand
    source := "mcp_system"
    conversationId := msg.conversationId
    timestamp := clk.now
    content := .text ("El mensaje " ++ msg.id ++ " fue procesado pero no generó una respuesta directa.")
    metadata := some [("originalMessageId", msg.id), ("status", "PROCESSED_NO_REPLY")] }

/-- Lines 113-141: step 3, building the Response from the handler result
(`if (processedMessage)` — an object is truthy, `null` is falsy). -/
def buildSuccessResponse (clk : Clock) (msg : MCPMessage) :
    Option MCPMessage → MCPResponse
  | some processed =>
    { originalMessageId := msg.id
      responseMessage := processed
      success := true }
  | none =>
    { originalMessageId := msg.id
      responseMessage := noResponseSystemMessage clk msg
      success := true }

/-- Lines 144-154: the interceptor loop inside one `try`; a rejection aborts
the remaining loop and the `catch` only logs, so the Response accumulated so
far is returned unmodified by the failing interceptor. -/
def runResponseInterceptors : List ResponseInterceptor → MCPResponse → MCPResponse
  | [], r => r
  | i :: rest, r =>
    match i r with
    | .error _ => r
    | .ok r2 => runResponseInterceptors rest r2

/-- Line 99: the `HANDLER_NOT_FOUND` error text. -/
def handlerNotFoundMessage (messageType msgId : String) : String :=
  "No se encontró un manejador para el tipo de mensaje " ++ singleQuote ++ messageType ++ singleQuote
    ++ " (ID: " ++ msgId ++ ")."

/-- Lines 80-157: `processRequest`, the full dispatch pipeline. -/
def processRequest (mcp : MessageControlPlane) (clk : Clock) (request : MCPRequest) :
    MCPResponse :=
  match runValidators mcp.requestValidators request with
  | .error e =>
    buildErrorResponse clk request.message.id "VALIDATION_ERROR"
      (jsOr e "Error de validación desconocido.")
  | .ok _ =>
    match mcp.messageHandlers (resolveMessageType request.message.metadata) with
    | none =>
      buildErrorResponse clk request.message.id "HANDLER_NOT_FOUND"
        (handlerNotFoundMessage (resolveMessageType request.message.metadata) request.message.id)
    | some handler =>
      match handler request.message with
      | .error e =>
        buildErrorResponse clk request.message.id "HANDLER_ERROR"
          (jsOr e "Error desconocido en el manejador.")
      | .ok processedMessage =>
        runResponseInterceptors mcp.responseInterceptors
          (buildSuccessResponse clk request.message processedMessage)

/-- Lines 193-197: `sendMessage` wraps the Message into a Request and calls
`processRequest`. -/
def sendMessage (mcp : MessageControlPlane) (clk : Clock) (message : MCPMessage) :
    MCPResponse :=
  processRequest mcp clk { message := message }

/-- The spec's Response invariant (§3): `success == false` iff `error` is
present, and the response message carries a usable (nonempty)
`conversationId`. -/
def responseInvariant (r : MCPResponse) : Prop :=
  (r.success = false ↔ r.error.isSome = true) ∧ r.responseMessage.conversationId ≠ ""

instance (r : MCPResponse) : Decidable (responseInvariant r) := by
  unfold responseInvariant; infer_instance

/-- Modelled from the spec (§4.3): the interceptor chain as a left-to-right
composition — each interceptor's output Response feeds the next one's input,
and the whole fold is defined (`some`) exactly when every interceptor
completes. Compared against `runResponseInterceptors` for claim C8. -/
def interceptorFold : List ResponseInterceptor → MCPResponse → Option MCPResponse
  | [], r => some r
  | i :: rest, r =>
    match i r with
    | .error _ => none
    | .ok r2 => interceptorFold rest r2

/-! ### Concrete fixtures used by witnesses and counterexamples -/

/-- A fixed clock value. -/
def clk0 : Clock := { now := 5, rand := "r7" }

/-- An inbound message with no metadata map. -/
def msgPlain : MCPMessage :=
  { id := "m1", source := "user", conversationId := "c1", timestamp := 0
    content := .text "hola" }

/-- An inbound message whose metadata carries an empty-string `type`. -/
def msgEmptyType : MCPMessage :=
  { msgPlain with metadata := some [("type", "")] }

/-- The fixed reply produced by `constHandler`. -/
def constOutMsg : MCPMessage :=
  { id := "out1", source := "agent", conversationId := "c-out", timestamp := 1
    content := .text "ok" }

/-- A handler that always replies with `constOutMsg`. -/
def constHandler : MessageHandler := fun _ => .ok (some constOutMsg)

/-- A handler that returns no-reply (`null`). -/
def nullHandler : MessageHandler := fun _ => .ok none

/-- A handler that throws with message `"boom"`. -/
def boomHandler : MessageHandler := fun _ => .error "boom"

/-- A handler that throws with an empty (falsy) error message. -/
def emptyFailHandler : MessageHandler := fun _ => .error ""

/-- A validator that always passes. -/
def okValidator : RequestValidator := fun _ => .ok ()

/-- A validator that always throws with message `"bad"`. -/
def badValidator : RequestValidator := fun _ => .error "bad"

/-- An interceptor that returns the response unchanged. -/
def idInterceptor : ResponseInterceptor := fun r => .ok r

/-- An interceptor that injects an `error` object while leaving `success` alone. -/
def errorInjectInterceptor : ResponseInterceptor :=
  fun r => .ok { r with error := some { code := "X", message := "y" } }

/-- An interceptor that rewrites the response message source. -/
def sourceRewriteInterceptor : ResponseInterceptor :=
  fun r => .ok { r with responseMessage := { r.responseMessage with source := "rewritten" } }

/-- An interceptor that always throws. -/
def failingInterceptor : ResponseInterceptor := fun _ => .error "boom"

/-- An interceptor appending `"A"` to the response message source. -/
def tagAInterceptor : ResponseInterceptor :=
  fun r => .ok { r with responseMessage :=
    { r.responseMessage with source := r.responseMessage.source ++ "A" } }

/-- An interceptor appending `"B"` to the response message source. -/
def tagBInterceptor : ResponseInterceptor :=
  fun r => .ok { r with responseMessage :=
    { r.responseMessage with source := r.responseMessage.source ++ "B" } }

/-- A handler registry holding a single entry. -/
def handlersOnly (key : String) (h : MessageHandler) : String → Option MessageHandler :=
  fun k => if k = key then some h else none

/-- C1 counterexample configuration: an interceptor that injects an `error`
object into a successful response. -/
def mcpC1x : MessageControlPlane :=
  { messageHandlers := handlersOnly "default" constHandler
    requestValidators := []
    responseInterceptors := [errorInjectInterceptor] }

/-- C1 witness configuration: an invariant-preserving interceptor chain. -/
def mcpC1w : MessageControlPlane :=
  { messageHandlers := handlersOnly "default" constHandler
    requestValidators := []
    responseInterceptors := [idInterceptor] }

/-- C2 witness configuration: a passing validator followed by a failing one. -/
def mcpC2w : MessageControlPlane :=
  { messageHandlers := handlersOnly "default" constHandler
    requestValidators := [okValidator, badValidator]
    responseInterceptors := [idInterceptor] }

/-- C3 witness configuration: a rewriting interceptor, then a failing one,
then another rewriting one that is never reached. -/
def mcpC3w : MessageControlPlane :=
  { messageHandlers := handlersOnly "default" constHandler
    requestValidators := []
    responseInterceptors := [sourceRewriteInterceptor, failingInterceptor, tagAInterceptor] }

/-- The response expected from the C3 witness: `constOutMsg` rewritten by the
first interceptor, untouched by the failing one. -/
def c3Expected : MCPResponse :=
  { originalMessageId := "m1"
    responseMessage := { constOutMsg with source := "rewritten" }
    success := true }

/-- C4 witness configuration: a no-reply handler, no interceptors. -/
def mcpC4w : MessageControlPlane :=
  { messageHandlers := handlersOnly "default" nullHandler
    requestValidators := [okValidator]
    responseInterceptors := [] }

/-- C4 counterexample configuration: a no-reply handler plus an interceptor
that rewrites the synthesized system message's source. -/
def mcpC4x : MessageControlPlane :=
  { messageHandlers := handlersOnly "default" nullHandler
    requestValidators := []
    responseInterceptors := [sourceRewriteInterceptor] }

/-- C5 witness configuration: a handler that throws `"boom"`. -/
def mcpC5w : MessageControlPlane :=
  { messageHandlers := handlersOnly "default" boomHandler
    requestValidators := []
    responseInterceptors := [errorInjectInterceptor] }

/-- C5 counterexample configuration: a handler whose thrown error carries an
empty message. -/
def mcpC5x : MessageControlPlane :=
  { messageHandlers := handlersOnly "default" emptyFailHandler
    requestValidators := []
    responseInterceptors := [] }

/-- C6 witness configuration: an empty registry, with an interceptor that
would corrupt the response if it ran. -/
def mcpC6w : MessageControlPlane :=
  { messageHandlers := fun _ => none
    requestValidators := [okValidator]
    responseInterceptors := [errorInjectInterceptor] }

/-- C7 witness configuration: only the `"default"` key is registered. -/
def mcpC7w : MessageControlPlane :=
  { messageHandlers := handlersOnly "default" constHandler
    requestValidators := [okValidator]
    responseInterceptors := [] }

/-- C8 witness configuration: two tagging interceptors whose writes compose. -/
def mcpC8w : MessageControlPlane :=
  { messageHandlers := handlersOnly "default" constHandler
    requestValidators := []
    responseInterceptors := [tagAInterceptor, tagBInterceptor] }

/-- The response expected from the C8 witness: the second interceptor
observes the first one's write (source `"agent" ++ "A" ++ "B"`). -/
def c8Expected : MCPResponse :=
  { originalMessageId := "m1"
    responseMessage := { constOutMsg with source := "agentAB" }
    success := true }

/-- C10 witness configuration: only the `"default"` key is registered. -/
def mcpC10w : MessageControlPlane :=
  { messageHandlers := handlersOnly "default" constHandler
    requestValidators := []
    responseInterceptors := [] }

/-! ### Shared helper lemmas -/

theorem conv_for_ne_empty (s : String) : "conv-for-" ++ s ≠ "" := by
  intro h
  have h2 := congrArg String.length h
  rw [String.length_append] at h2
  rw [show ("conv-for-" : String).length = 9 from rfl] at h2
  rw [show ("" : String).length = 0 from rfl] at h2
  omega

theorem buildErrorResponse_invariant (clk : Clock) (oid code msg : String) :
    responseInvariant (buildErrorResponse clk oid code msg) := by
  refine ⟨?_, ?_⟩
  · simp [buildErrorResponse]
  · exact conv_for_ne_empty oid

theorem runValidators_append_error (vs1 : List RequestValidator) (v : RequestValidator)
    (vs2 : List RequestValidator) (req : MCPRequest) (e : String)
    (h1 : ∀ u ∈ vs1, u req = .ok ()) (h2 : v req = .error e) :
    runValidators (vs1 ++ v :: vs2) req = .error e := by
  induction vs1 with
  | nil => simp only [List.nil_append, runValidators, h2]
  | cons u us ih =>
    have hu : u req = .ok () := h1 u (by simp)
    simp only [List.cons_append, runValidators, hu]
    exact ih fun w hw => h1 w (by simp [hw])

theorem runResponseInterceptors_preserve (P : MCPResponse → Prop)
    (is : List ResponseInterceptor) (r : MCPResponse)
    (hpres : ∀ i ∈ is, ∀ a b, P a → i a = .ok b → P b) (hr : P r) :
    P (runResponseInterceptors is r) := by
  induction is generalizing r with
  | nil => exact hr
  | cons i rest ih =>
    simp only [runResponseInterceptors]
    cases hi : i r with
    | error e => exact hr
    | ok r2 =>
      exact ih r2 (fun j hj => hpres j (List.mem_cons_of_mem _ hj))
        (hpres i (List.mem_cons_self _ _) r r2 hr hi)

theorem interceptorFold_append_run (is1 : List ResponseInterceptor) (r r1 : MCPResponse)
    (h : interceptorFold is1 r = some r1) (rest : List ResponseInterceptor) :
    runResponseInterceptors (is1 ++ rest) r = runResponseInterceptors rest r1 := by
  induction is1 generalizing r with
  | nil =>
    simp only [interceptorFold, Option.some.injEq] at h
    rw [h]
    rfl
  | cons i is ih =>
    simp only [interceptorFold] at h
    cases hi : i r with
    | error e => rw [hi] at h; exact absurd h (by simp)
    | ok r2 =>
      rw [hi] at h
      simp only [List.cons_append, runResponseInterceptors, hi]
      exact ih r2 h

theorem interceptorFold_eq_run (is : List ResponseInterceptor) (r r1 : MCPResponse)
    (h : interceptorFold is r = some r1) :
    runResponseInterceptors is r = r1 := by
  have h2 := interceptorFold_append_run is r r1 h []
  rwa [List.append_nil] at h2

/-! ### Claim theorems -/

/-- Claim C2: whenever some validator fails, the validators before it all
having passed, `processRequest` stops at that first failing validator —
the validators after it, the whole handler registry and the whole
interceptor chain are irrelevant to the result (they are quantified
arbitrarily and absent from the right-hand side) — and the result is the
`VALIDATION_ERROR` failure Response, with `success = false`. -/
theorem spec_C2 (mcp : MessageControlPlane) (clk : Clock) (req : MCPRequest)
    (vs1 vs2 : List RequestValidator) (v : RequestValidator) (e : String)
    (hchain : mcp.requestValidators = vs1 ++ v :: vs2)
    (hok : ∀ u ∈ vs1, u req = .ok ())
    (hfail : v req = .error e) :
    processRequest mcp clk req
      = buildErrorResponse clk req.message.id "VALIDATION_ERROR"
          (jsOr e "Error de validación desconocido.")
    ∧ (processRequest mcp clk req).success = false
    ∧ (processRequest mcp clk req).error
        = some { code := "VALIDATION_ERROR"
                 message := jsOr e "Error de validación desconocido." } := by
  have hrv : runValidators mcp.requestValidators req = .error e := by
    rw [hchain]
    exact runValidators_append_error vs1 v vs2 req e hok hfail
  have hmain : processRequest mcp clk req
      = buildErrorResponse clk req.message.id "VALIDATION_ERROR"
          (jsOr e "Error de validación desconocido.") := by
    simp only [processRequest, hrv]
  exact ⟨hmain, by rw [hmain]; rfl, by rw [hmain]; rfl⟩

/-- Witness for C2 at a concrete configuration: a passing validator followed
by a failing one, with a handler and an interceptor registered that the
failure bypasses. -/
theorem spec_C2_witness :
    processRequest mcpC2w clk0 { message := msgPlain }
      = buildErrorResponse clk0 "m1" "VALIDATION_ERROR" "bad" := by
  have h := spec_C2 mcpC2w clk0 { message := msgPlain } [okValidator] [] badValidator "bad"
    rfl
    (by
      intro u hu
      rw [List.mem_singleton] at hu
      rw [hu]
      rfl)
    rfl
  exact h.1

/-- Claim C5 (amended): a failing handler yields the `HANDLER_ERROR` failure
Response — `success = false`, interceptors skipped (the result does not
mention the arbitrary interceptor chain) — whose `error.message` is the
handler's error message when that message is nonempty and the fixed default
text otherwise. -/
theorem spec_C5_amended (mcp : MessageControlPlane) (clk : Clock) (req : MCPRequest)
    (h : MessageHandler) (e : String)
    (hval : runValidators mcp.requestValidators req = .ok ())
    (hlook : mcp.messageHandlers (resolveMessageType req.message.metadata) = some h)
    (hrun : h req.message = .error e) :
    processRequest mcp clk req
      = buildErrorResponse clk req.message.id "HANDLER_ERROR"
          (jsOr e "Error desconocido en el manejador.")
    ∧ (processRequest mcp clk req).success = false
    ∧ (processRequest mcp clk req).error
        = some { code := "HANDLER_ERROR"
                 message := jsOr e "Error desconocido en el manejador." } := by
  have hmain : processRequest mcp clk req
      = buildErrorResponse clk req.message.id "HANDLER_ERROR"
          (jsOr e "Error desconocido en el manejador.") := by
    simp only [processRequest, hval, hlook, hrun]
  exact ⟨hmain, by rw [hmain]; rfl, by rw [hmain]; rfl⟩

/-- Counterexample for C5 as frozen: a handler that throws with an empty
(falsy) error message; the Response's `error.message` is the default text
`"Error desconocido en el manejador."`, not the handler's own message `""`. -/
theorem spec_C5_counterexample :
    emptyFailHandler msgPlain = Except.error ""
    ∧ (processRequest mcpC5x clk0 { message := msgPlain }).error
        = some { code := "HANDLER_ERROR", message := "Error desconocido en el manejador." }
    ∧ (processRequest mcpC5x clk0 { message := msgPlain }).error
        ≠ some { code := "HANDLER_ERROR", message := "" } :=
  ⟨rfl, by decide, by decide⟩

/-- Witness for C5 (amended) at a concrete configuration: a handler throwing
`"boom"`, with an interceptor registered that the failure bypasses. -/
theorem spec_C5_amended_witness :
    processRequest mcpC5w clk0 { message := msgPlain }
      = buildErrorResponse clk0 "m1" "HANDLER_ERROR" "boom" := by
  have h := spec_C5_amended mcpC5w clk0 { message := msgPlain } boomHandler "boom"
    rfl rfl rfl
  exact h.1

/-- Claim C6: when the resolved message-type key has no registered handler,
`processRequest` returns the `HANDLER_NOT_FOUND` failure Response with
`success = false`; no handler runs and the arbitrary interceptor chain is
absent from the result. -/
theorem spec_C6 (mcp : MessageControlPlane) (clk : Clock) (req : MCPRequest)
    (hval : runValidators mcp.requestValidators req = .ok ())
    (hlook : mcp.messageHandlers (resolveMessageType req.message.metadata) = none) :
    processRequest mcp clk req
      = buildErrorResponse clk req.message.id "HANDLER_NOT_FOUND"
          (handlerNotFoundMessage (resolveMessageType req.message.metadata) req.message.id)
    ∧ (processRequest mcp clk req).success = false
    ∧ ((processRequest mcp clk req).error.map MCPErrorInfo.code) = some "HANDLER_NOT_FOUND" := by
  have hmain : processRequest mcp clk req
      = buildErrorResponse clk req.message.id "HANDLER_NOT_FOUND"
          (handlerNotFoundMessage (resolveMessageType req.message.metadata) req.message.id) := by
    simp only [processRequest, hval, hlook]
  exact ⟨hmain, by rw [hmain]; rfl, by rw [hmain]; rfl⟩

/-- Witness for C6 at a concrete configuration: empty registry, one passing
validator, and an interceptor that would corrupt the Response if it ran. -/
theorem spec_C6_witness :
    processRequest mcpC6w clk0 { message := msgPlain }
      = buildErrorResponse clk0 "m1" "HANDLER_NOT_FOUND"
          (handlerNotFoundMessage "default" "m1") := by
  have h := spec_C6 mcpC6w clk0 { message := msgPlain } rfl rfl
  exact h.1

/-- Claim C9: `sendMessage m` returns exactly `processRequest {message := m}`
for every configuration, clock and message — the wrapper adds no logic. -/
theorem spec_C9 (mcp : MessageControlPlane) (clk : Clock) (m : MCPMessage) :
    sendMessage mcp clk m = processRequest mcp clk { message := m } := rfl

/-- Claim C3: when a Response was successfully produced (validation passed,
handler resolved and completed) and some interceptor in the chain fails
after a prefix of interceptors completed successfully, `processRequest`
still returns normally and its result is exactly the Response produced by
the last interceptor that completed — the failing interceptor (and the rest
of the chain) leaves it unmodified, so its `success` flag is unchanged. -/
theorem spec_C3 (mcp : MessageControlPlane) (clk : Clock) (req : MCPRequest)
    (h : MessageHandler) (pm : Option MCPMessage)
    (is1 is2 : List ResponseInterceptor) (i : ResponseInterceptor)
    (r1 : MCPResponse) (e : String)
    (hval : runValidators mcp.requestValidators req = .ok ())
    (hlook : mcp.messageHandlers (resolveMessageType req.message.metadata) = some h)
    (hrun : h req.message = .ok pm)
    (hchain : mcp.responseInterceptors = is1 ++ i :: is2)
    (hpre : interceptorFold is1 (buildSuccessResponse clk req.message pm) = some r1)
    (hfail : i r1 = .error e) :
    processRequest mcp clk req = r1
    ∧ (processRequest mcp clk req).success = r1.success := by
  have hmain : processRequest mcp clk req = r1 := by
    simp only [processRequest, hval, hlook, hrun, hchain]
    rw [interceptorFold_append_run is1 _ r1 hpre (i :: is2)]
    simp only [runResponseInterceptors, hfail]
  exact ⟨hmain, by rw [hmain]⟩

/-- Witness for C3 at a concrete configuration: a rewriting interceptor
completes, the next interceptor throws, and the returned Response is the
rewritten (pre-fault) one, success still `true`. -/
theorem spec_C3_witness :
    processRequest mcpC3w clk0 { message := msgPlain } = c3Expected := by
  have h := spec_C3 mcpC3w clk0 { message := msgPlain } constHandler (some constOutMsg)
    [sourceRewriteInterceptor] [tagAInterceptor] failingInterceptor c3Expected "boom"
    rfl rfl rfl rfl (by decide) rfl
  exact h.1

/-- Claim C8: when validation passed, the handler completed, and every
interceptor completes (the spec-side left-to-right fold `interceptorFold`,
each interceptor's output feeding the next one's input, is defined),
`processRequest` returns exactly that fold of the interceptor functions
applied to the initial Response. -/
theorem spec_C8 (mcp : MessageControlPlane) (clk : Clock) (req : MCPRequest)
    (h : MessageHandler) (pm : Option MCPMessage) (rOut : MCPResponse)
    (hval : runValidators mcp.requestValidators req = .ok ())
    (hlook : mcp.messageHandlers (resolveMessageType req.message.metadata) = some h)
    (hrun : h req.message = .ok pm)
    (hfold : interceptorFold mcp.responseInterceptors
        (buildSuccessResponse clk req.message pm) = some rOut) :
    processRequest mcp clk req = rOut := by
  simp only [processRequest, hval, hlook, hrun]
  exact interceptorFold_eq_run mcp.responseInterceptors _ rOut hfold

/-- Witness for C8 at a concrete configuration: two interceptors that each
append a tag to the response message's source; the second observes the
first one's write and the result carries both tags in order. -/
theorem spec_C8_witness :
    processRequest mcpC8w clk0 { message := msgPlain } = c8Expected :=
  spec_C8 mcpC8w clk0 { message := msgPlain } constHandler (some constOutMsg) c8Expected
    rfl rfl rfl (by decide)

/-- Claim C4 (amended): when the resolved handler returns no-reply, the
dispatcher synthesizes a system Message with source `mcp_system`, the
inbound `conversationId`, content stating the message was processed without
a direct reply, and metadata `{originalMessageId, status:
PROCESSED_NO_REPLY}`, wrapped in a `success = true` Response;
`processRequest` returns that Response passed through the interceptor chain
(hence exactly that Response when no interceptors are registered). -/
theorem spec_C4_amended (mcp : MessageControlPlane) (clk : Clock) (req : MCPRequest)
    (h : MessageHandler)
    (hval : runValidators mcp.requestValidators req = .ok ())
    (hlook : mcp.messageHandlers (resolveMessageType req.message.metadata) = some h)
    (hrun : h req.message = .ok none) :
    processRequest mcp clk req
      = runResponseInterceptors mcp.responseInterceptors
          (buildSuccessResponse clk req.message none)
    ∧ (buildSuccessResponse clk req.message none).success = true
    ∧ (buildSuccessResponse clk req.message none).responseMessage.source = "mcp_system"
    ∧ (buildSuccessResponse clk req.message none).responseMessage.conversationId
        = req.message.conversationId
    ∧ (buildSuccessResponse clk req.message none).responseMessage.content
        = .text ("El mensaje " ++ req.message.id
            ++ " fue procesado pero no generó una respuesta directa.")
    ∧ (buildSuccessResponse clk req.message none).responseMessage.metadata
        = some [("originalMessageId", req.message.id), ("status", "PROCESSED_NO_REPLY")] := by
  refine ⟨?_, rfl, rfl, rfl, rfl, rfl⟩
  simp only [processRequest, hval, hlook, hrun]

/-- Witness for C4 (amended) at a concrete configuration with no
interceptors: the returned Response is the synthesized no-reply Response
itself. -/
theorem spec_C4_amended_witness :
    processRequest mcpC4w clk0 { message := msgPlain }
      = buildSuccessResponse clk0 msgPlain none
    ∧ (processRequest mcpC4w clk0 { message := msgPlain }).responseMessage.source
        = "mcp_system" := by
  have h := spec_C4_amended mcpC4w clk0 { message := msgPlain } nullHandler rfl rfl rfl
  exact ⟨h.1, by rw [h.1]; rfl⟩

/-- Counterexample for C4 as frozen: with a registered interceptor that
rewrites the synthesized message's source, the handler returns no-reply yet
`processRequest`'s final Response does not carry source `mcp_system`. -/
theorem spec_C4_counterexample :
    nullHandler msgPlain = Except.ok none
    ∧ (processRequest mcpC4x clk0 { message := msgPlain }).success = true
    ∧ (processRequest mcpC4x clk0 { message := msgPlain }).responseMessage.source
        ≠ "mcp_system" :=
  ⟨rfl, by decide, by decide⟩

/-- Claim C7: a message whose metadata map is absent, or whose metadata has
no `type` entry, resolves to the literal key `"default"`; when a handler is
registered under `"default"`, validation passes and that handler completes,
the message is dispatched to it and processed successfully (`success =
true` on the produced Response). -/
theorem spec_C7 (mcp : MessageControlPlane) (clk : Clock) (req : MCPRequest)
    (h0 : MessageHandler) (pm : Option MCPMessage)
    (hmd : req.message.metadata = none
      ∨ ∃ l, req.message.metadata = some l ∧ l.lookup "type" = none)
    (hval : runValidators mcp.requestValidators req = .ok ())
    (hreg : mcp.messageHandlers "default" = some h0)
    (hrun : h0 req.message = .ok pm) :
    resolveMessageType req.message.metadata = "default"
    ∧ processRequest mcp clk req
        = runResponseInterceptors mcp.responseInterceptors
            (buildSuccessResponse clk req.message pm)
    ∧ (buildSuccessResponse clk req.message pm).success = true := by
  have hkey : resolveMessageType req.message.metadata = "default" := by
    rcases hmd with hm | ⟨l, hl, ht⟩
    · rw [hm]; rfl
    · rw [hl]; simp only [resolveMessageType, ht]
  have hlook : mcp.messageHandlers (resolveMessageType req.message.metadata) = some h0 := by
    rw [hkey]; exact hreg
  refine ⟨hkey, ?_, ?_⟩
  · simp only [processRequest, hval, hlook, hrun]
  · cases pm <;> rfl

/-- Witness for C7 at a concrete configuration: only `"default"` registered,
inbound message with no metadata map; the handler's reply is returned with
success. -/
theorem spec_C7_witness :
    processRequest mcpC7w clk0 { message := msgPlain }
      = buildSuccessResponse clk0 msgPlain (some constOutMsg) := by
  have h := spec_C7 mcpC7w clk0 { message := msgPlain } constHandler (some constOutMsg)
    (Or.inl rfl) rfl rfl rfl
  exact h.2.1

/-- Claim C10: a metadata `type` entry holding the falsy empty string
resolves to `"default"` — exactly like a message with no metadata at all —
and registering a handler under the empty-string key never changes the
outcome of `processRequest` (that handler is unreachable). -/
theorem spec_C10 (mcp : MessageControlPlane) (clk : Clock) (req : MCPRequest)
    (h0 : MessageHandler) (l : List (String × String))
    (hmd : req.message.metadata = some l)
    (hty : l.lookup "type" = some "") :
    resolveMessageType req.message.metadata = "default"
    ∧ resolveMessageType req.message.metadata = resolveMessageType none
    ∧ processRequest (registerMessageHandler mcp "" h0) clk req
        = processRequest mcp clk req := by
  have hkey : resolveMessageType req.message.metadata = "default" := by
    rw [hmd]
    simp only [resolveMessageType, hty]
    simp
  have hmh : (registerMessageHandler mcp "" h0).messageHandlers
      (resolveMessageType req.message.metadata)
      = mcp.messageHandlers (resolveMessageType req.message.metadata) := by
    rw [hkey]
    simp only [registerMessageHandler]
    rw [if_neg (by decide)]
  refine ⟨hkey, by rw [hkey]; rfl, ?_⟩
  have hv2 : (registerMessageHandler mcp "" h0).requestValidators
      = mcp.requestValidators := rfl
  have hi2 : (registerMessageHandler mcp "" h0).responseInterceptors
      = mcp.responseInterceptors := rfl
  unfold processRequest
  rw [hv2, hi2, hmh]

/-- Witness for C10 at a concrete configuration: metadata `{type: ""}`
routes to `"default"`, and registering a handler under `""` leaves the
result unchanged. -/
theorem spec_C10_witness :
    resolveMessageType msgEmptyType.metadata = "default"
    ∧ processRequest (registerMessageHandler mcpC10w "" nullHandler) clk0
        { message := msgEmptyType }
        = processRequest mcpC10w clk0 { message := msgEmptyType } := by
  have h := spec_C10 mcpC10w clk0 { message := msgEmptyType } nullHandler
    [("type", "")] rfl rfl
  exact ⟨h.1, h.2.2⟩

/-- Claim C1 (amended): `processRequest` is total — every path, including
all three failure paths, yields a Response — and provided the inbound
message carries a nonempty `conversationId`, every registered handler's
replies do too, and every interceptor preserves the Response invariant,
the returned Response satisfies it: `success = false` iff `error` is
present, and `responseMessage` carries a nonempty `conversationId` (on
failure paths it is the synthetic `conv-for-` one unconditionally). -/
theorem spec_C1_amended (mcp : MessageControlPlane) (clk : Clock) (req : MCPRequest)
    (hconv : req.message.conversationId ≠ "")
    (hhandlers : ∀ k h, mcp.messageHandlers k = some h →
      ∀ m m', h m = Except.ok (some m') → m'.conversationId ≠ "")
    (hints : ∀ i ∈ mcp.responseInterceptors, ∀ a b,
      responseInvariant a → i a = Except.ok b → responseInvariant b) :
    responseInvariant (processRequest mcp clk req) := by
  cases hv : runValidators mcp.requestValidators req with
  | error e =>
    simp only [processRequest, hv]
    exact buildErrorResponse_invariant clk req.message.id _ _
  | ok u =>
    cases hl : mcp.messageHandlers (resolveMessageType req.message.metadata) with
    | none =>
      simp only [processRequest, hv, hl]
      exact buildErrorResponse_invariant clk req.message.id _ _
    | some h =>
      cases hr : h req.message with
      | error e =>
        simp only [processRequest, hv, hl, hr]
        exact buildErrorResponse_invariant clk req.message.id _ _
      | ok pm =>
        simp only [processRequest, hv, hl, hr]
        apply runResponseInterceptors_preserve responseInvariant _ _ hints
        cases pm with
        | none =>
          exact ⟨by simp [buildSuccessResponse], hconv⟩
        | some m' =>
          exact ⟨by simp [buildSuccessResponse], hhandlers _ h hl req.message m' hr⟩

/-- Witness for C1 (amended) at a concrete configuration: an identity
interceptor and a handler with a fixed nonempty reply `conversationId`. -/
theorem spec_C1_amended_witness :
    responseInvariant (processRequest mcpC1w clk0 { message := msgPlain }) := by
  apply spec_C1_amended
  · decide
  · intro k h hk m m' hm
    simp only [mcpC1w, handlersOnly] at hk
    split at hk
    · cases hk
      simp only [constHandler, Except.ok.injEq, Option.some.injEq] at hm
      rw [← hm]
      decide
    · exact Option.noConfusion hk
  · intro i hi a b ha hb
    simp only [mcpC1w, List.mem_singleton] at hi
    subst hi
    simp only [idInterceptor, Except.ok.injEq] at hb
    rwa [← hb]

/-- Counterexample for C1 as frozen: an interceptor that injects an `error`
object into a successful Response makes `processRequest` return a Response
with `success = true` and `error` present, violating the claimed
invariant. -/
theorem spec_C1_counterexample :
    ¬ responseInvariant (processRequest mcpC1x clk0 { message := msgPlain }) := by
  decide
